import Mathlib

set_option maxRecDepth 100000

/-!
Verification development for the `lmwrapper` SQL-backed prediction cache
(`lmwrapper/sqlcache.py`).

Strings are modelled as lists of Unicode code points (`List Nat`); byte
strings as lists of byte values.  The 64-bit arithmetic of xxHash is
modelled on `Nat` with explicit reduction modulo `2 ^ 64`.  The three
SQLite tables are modelled as lists of rows in insertion order; each SQL
statement executed by the source becomes an explicit state transformer.
-/

/-- Code points of a Lean string literal, used to write concrete Python
strings in this development. -/
def sCodes (s : String) : List Nat :=
  s.data.map Char.toNat

/-- UTF-8 encoding of a single code point (as produced by Python
`str.encode()`). -/
def utf8Char (c : Nat) : List Nat :=
  if c < 0x80 then [c]
  else if c < 0x800 then [0xC0 + c / 64, 0x80 + c % 64]
  else if c < 0x10000 then [0xE0 + c / 4096, 0x80 + c / 64 % 64, 0x80 + c % 64]
  else [0xF0 + c / 262144, 0x80 + c / 4096 % 64, 0x80 + c / 64 % 64, 0x80 + c % 64]

/-- UTF-8 encoding of a code-point string (Python `str.encode()`). -/
def utf8Encode (cs : List Nat) : List Nat :=
  (cs.map utf8Char).flatten

/-! ## xxHash64

Faithful model of the XXH64 algorithm (the `xxhash.xxh64` digest used by
`sqlcache.py`), on `Nat` with explicit `% 2 ^ 64`.  Validated against
`libxxhash` on concrete inputs of every length class. -/

def xxPrime1 : Nat := 0x9E3779B185EBCA87
def xxPrime2 : Nat := 0xC2B2AE3D27D4EB4F
def xxPrime3 : Nat := 0x165667B19E3779F9
def xxPrime4 : Nat := 0x85EBCA77C2B2AE63
def xxPrime5 : Nat := 0x27D4EB2F165667C5

/-- Rotate a 64-bit value (given as a `Nat` below `2 ^ 64`) left by `n`
bits, `0 < n < 64`. -/
def rotl64 (x n : Nat) : Nat :=
  (x * 2 ^ n + x / 2 ^ (64 - n)) % 2 ^ 64

/-- The XXH64 accumulator round. -/
def xxRound (acc lane : Nat) : Nat :=
  rotl64 ((acc + lane * xxPrime2) % 2 ^ 64) 31 * xxPrime1 % 2 ^ 64

/-- The XXH64 merge step folding one stripe accumulator into the result. -/
def xxMergeRound (acc accN : Nat) : Nat :=
  ((acc ^^^ xxRound 0 accN) * xxPrime1 + xxPrime4) % 2 ^ 64

/-- Little-endian value of a byte list. -/
def leVal : List Nat → Nat
  | [] => 0
  | b :: bs => b + 256 * leVal bs

/-- Stripe loop of XXH64: consume 32-byte stripes while at least 32 bytes
remain.  `fuel` bounds the recursion (`input.length` suffices) so the
function reduces structurally. -/
def xxStripes (fuel : Nat) (l : List Nat) (a1 a2 a3 a4 : Nat) :
    (Nat × Nat × Nat × Nat) × List Nat :=
  match fuel with
  | 0 => ((a1, a2, a3, a4), l)
  | fuel + 1 =>
    if 32 ≤ l.length then
      xxStripes fuel (l.drop 32)
        (xxRound a1 (leVal ((l.take 8))))
        (xxRound a2 (leVal ((l.drop 8).take 8)))
        (xxRound a3 (leVal ((l.drop 16).take 8)))
        (xxRound a4 (leVal ((l.drop 24).take 8)))
    else ((a1, a2, a3, a4), l)

/-- Tail loop of XXH64 consuming 8-byte lanes. -/
def xxTail8 (fuel : Nat) (l : List Nat) (acc : Nat) : Nat × List Nat :=
  match fuel with
  | 0 => (acc, l)
  | fuel + 1 =>
    if 8 ≤ l.length then
      xxTail8 fuel (l.drop 8)
        ((rotl64 (acc ^^^ xxRound 0 (leVal (l.take 8))) 27 * xxPrime1 + xxPrime4) % 2 ^ 64)
    else (acc, l)

/-- Tail loop of XXH64 consuming the single possible 4-byte lane. -/
def xxTail4 (l : List Nat) (acc : Nat) : Nat × List Nat :=
  if 4 ≤ l.length then
    ((rotl64 (acc ^^^ leVal (l.take 4) * xxPrime1 % 2 ^ 64) 23 * xxPrime2 + xxPrime3) % 2 ^ 64,
      l.drop 4)
  else (acc, l)

/-- Tail loop of XXH64 consuming the remaining single bytes. -/
def xxTail1 : List Nat → Nat → Nat
  | [], acc => acc
  | b :: bs, acc => xxTail1 bs (rotl64 (acc ^^^ b * xxPrime5 % 2 ^ 64) 11 * xxPrime1 % 2 ^ 64)

/-- Final avalanche mix of XXH64. -/
def xxAvalanche (h : Nat) : Nat :=
  let h := h ^^^ h / 2 ^ 33
  let h := h * xxPrime2 % 2 ^ 64
  let h := h ^^^ h / 2 ^ 29
  let h := h * xxPrime3 % 2 ^ 64
  h ^^^ h / 2 ^ 32

/-- XXH64 of a byte string with the given seed (`sqlcache.py` always uses
the default seed 0). -/
def xxh64 (input : List Nat) (seed : Nat) : Nat :=
  let n := input.length
  let (acc, rest) :=
    if 32 ≤ n then
      let s := xxStripes n input
        ((seed + xxPrime1 + xxPrime2) % 2 ^ 64)
        ((seed + xxPrime2) % 2 ^ 64)
        (seed % 2 ^ 64)
        ((seed + (2 ^ 64 - xxPrime1)) % 2 ^ 64)
      let (a1, a2, a3, a4) := s.1
      let acc := (rotl64 a1 1 + rotl64 a2 7 + rotl64 a3 12 + rotl64 a4 18) % 2 ^ 64
      let acc := xxMergeRound acc a1
      let acc := xxMergeRound acc a2
      let acc := xxMergeRound acc a3
      let acc := xxMergeRound acc a4
      (acc, s.2)
    else ((seed + xxPrime5) % 2 ^ 64, input)
  let acc := (acc + n) % 2 ^ 64
  let t8 := xxTail8 rest.length rest acc
  let t4 := xxTail4 t8.2 t8.1
  xxAvalanche (xxTail1 t4.2 t4.1)

/-- Big-endian byte list of a 64-bit hash value, as returned by the
`xxhash` `digest()` method. -/
def digestBytes (h : Nat) : List Nat :=
  [h / 2 ^ 56 % 256, h / 2 ^ 48 % 256, h / 2 ^ 40 % 256, h / 2 ^ 32 % 256,
   h / 2 ^ 24 % 256, h / 2 ^ 16 % 256, h / 2 ^ 8 % 256, h % 256]

/-- Character codes of the standard base64 alphabet. -/
def b64Alphabet : List Nat :=
  sCodes ("ABCDEFGHIJKLMNOPQRSTUVWXYZabcdefghijklmnopqrstuvwxyz0123456789+/")

/-- Base64 character for a 6-bit value. -/
def b64Char (v : Nat) : Nat :=
  b64Alphabet.getD v 0

/-- Standard base64 encoding of a byte list (Python `base64.b64encode`),
as character codes; 61 is the code of the `=` padding character. -/
def b64encode : List Nat → List Nat
  | [] => []
  | [a] => [b64Char (a / 4), b64Char (a % 4 * 16), 61, 61]
  | [a, b] => [b64Char (a / 4), b64Char (a % 4 * 16 + b / 16), b64Char (b % 16 * 4), 61]
  | a :: b :: c :: rest =>
    b64Char (a / 4) :: b64Char (a % 4 * 16 + b / 16) ::
      b64Char (b % 16 * 4 + c / 64) :: b64Char (c % 64) :: b64encode rest

/-! ## Python values and their string forms

`sqlcache.py` hashes `str(prompt_to_only_sample_class_dict(...))`, the
Python string form of a dict of parameter values.  `PyVal` models the
Python values that can appear in that dict; `pyRepr` models Python
`repr`, `pyStr` models Python `str`.  A float is identified by its
`repr` string (no claim depends on float arithmetic). -/

inductive PyVal where
  | none
  | bool (b : Bool)
  | int (n : Int)
  | float (r : List Nat)
  | str (s : List Nat)
deriving DecidableEq

/-- Decimal character codes of a natural number. -/
def natCodes (n : Nat) : List Nat :=
  (Nat.toDigits 10 n).map Char.toNat

/-- Decimal character codes of an integer (Python `repr` of an `int`);
45 is the code of the minus sign. -/
def intCodes : Int → List Nat
  | Int.ofNat m => natCodes m
  | Int.negSucc m => 45 :: natCodes (m + 1)

/-- Hexadecimal digit character code. -/
def hexDigit (n : Nat) : Nat :=
  if n < 10 then 48 + n else 87 + n

/-- Escaping of one character inside a Python string `repr` quoted with
quote character `q` (92 is the backslash code). -/
def escChar (q c : Nat) : List Nat :=
  if c = 92 then [92, 92]
  else if c = q then [92, q]
  else if c = 10 then [92, 110]
  else if c = 13 then [92, 114]
  else if c = 9 then [92, 116]
  else if c < 32 ∨ c = 127 then [92, 120, hexDigit (c / 16), hexDigit (c % 16)]
  else [c]

/-- Python `repr` of a string: single-quoted (39) unless the string
contains a single quote and no double quote (34), in which case it is
double-quoted. -/
def pyStrRepr (s : List Nat) : List Nat :=
  let q := if s.contains 39 && !(s.contains 34) then 34 else 39
  [q] ++ (s.map (escChar q)).flatten ++ [q]

/-- Python `repr` of a `PyVal`. -/
def pyRepr : PyVal → List Nat
  | PyVal.none => sCodes ("None")
  | PyVal.bool true => sCodes ("True")
  | PyVal.bool false => sCodes ("False")
  | PyVal.int n => intCodes n
  | PyVal.float r => r
  | PyVal.str s => pyStrRepr s

/-- Python `str` of a `PyVal`: the string itself for strings, `repr`
otherwise. -/
def pyStr : PyVal → List Nat
  | PyVal.str s => s
  | v => pyRepr v

/-- Python `str` of an optional list of strings, as used for the `stop`
field (`str(prompt.stop)`): the sentinel `None` when absent, the list
`repr` otherwise (91 and 93 are the bracket codes). -/
def pyOptListStr : Option (List (List Nat)) → List Nat
  | Option.none => sCodes ("None")
  | Option.some xs => [91] ++ List.intercalate (sCodes (", ")) (xs.map pyStrRepr) ++ [93]

/-- Python `str` of a dict with string keys in insertion order: code 123
is the opening brace, 125 the closing brace, 58 the colon, 44 the comma,
32 the space. -/
def pyDictStr (d : List (List Nat × PyVal)) : List Nat :=
  [123] ++
    List.intercalate [44, 32]
      (d.map (fun e => pyStrRepr e.1 ++ [58, 32] ++ pyRepr e.2)) ++
  [125]

/-! ## The request and prediction objects

These collaborator objects live in `lmwrapper/structs.py` and
`lmwrapper/abstract_predictor.py`, which are not part of the sources
under verification; they are modelled from the spec. -/

/-- Modelled from the spec: the request object (`LmPrompt` from the
repository's structs module, not under the verified sources).  It
exposes the normalized prompt text
(`get_text_as_string_default_form`, here `text` as code points) and the
enumerated sampling-parameter fields read by
`prompt_to_only_sample_class_dict`. -/
structure LmPrompt where
  text : List Nat
  max_tokens : PyVal
  temperature : PyVal
  top_p : PyVal
  presence_penalty : PyVal
  frequency_penalty : PyVal
  add_bos_token : PyVal
  echo : Bool
  add_special_tokens : Bool
  model_internals_request : Option Unit
  stop : Option (List (List Nat))
deriving DecidableEq

/-- Modelled from the spec: the prediction object (`LmPrediction` from
the repository's structs module, not under the verified sources): the
request it answers, a result-kind discriminator (`base_class`), the
completion text, and metadata already in the opaque serialized byte form
produced by `serialize_metad_for_cache` and consumed unchanged by the
variant deserializer. -/
structure LmPrediction where
  prompt : LmPrompt
  base_class : List Nat
  completion_text : List Nat
  metad : List Nat
deriving DecidableEq

/-- Modelled from the spec: the model-calling collaborator
(`LmPredictor`), exposing the model-identity string
(`get_model_cache_key`) and the result-kind discriminator chosen for a
prompt (`find_prediction_class(prompt).__name__`). -/
structure LmPredictor where
  model_cache_key : List Nat
  prediction_class_name : LmPrompt → List Nat

/-- Modelled from the spec: `parse_from_cache` of the result variant
reconstructs a prediction from the stored completion text, the prompt,
and the stored metadata bytes. -/
def parse_from_cache (cls : List Nat) (completion_text : List Nat) (prompt : LmPrompt)
    (metad_bytes : List Nat) : LmPrediction :=
  { prompt := prompt, base_class := cls, completion_text := completion_text,
    metad := metad_bytes }

/-! ## Key derivation (`sqlcache.py` lines 91-134) -/

def _text_hash_len : Nat := 32

def _text_and_sample_hash_len : Nat := 43

/-- Python slice `text[-k:]` for `k ≥ 0`: the whole string when `k = 0`
(since `-0 = 0`), the last `k` characters otherwise. -/
def pyNegTail (l : List Nat) (k : Nat) : List Nat :=
  if k = 0 then l else l.drop (l.length - k)

/-- Translation of `prompt_to_text_hash`: base64 of the xxh64 digest of
the UTF-8 text, preceded by a leading fragment of the text and a
reversed trailing fragment, padded with 95 (the underscore) to exactly
`_text_hash_len` characters. -/
def prompt_to_text_hash (prompt : LmPrompt) : List Nat :=
  let text := prompt.text
  let text_hash := b64encode (digestBytes (xxh64 (utf8Encode text) 0))
  let remaining_chars := _text_hash_len - text_hash.length
  let start_chars := text.take (min (remaining_chars / 3) text.length)
  let end_chars := pyNegTail text (min (remaining_chars - start_chars.length) text.length)
  let text_hash := start_chars ++ end_chars.reverse ++ text_hash
  if text_hash.length < _text_hash_len then
    text_hash ++ List.replicate (_text_hash_len - text_hash.length) 95
  else text_hash

/-- Translation of `prompt_to_only_sample_class_dict`: the canonical
parameter dict, in source insertion order. -/
def prompt_to_only_sample_class_dict (prompt : LmPrompt) (model_key : List Nat) :
    List (List Nat × PyVal) :=
  [(sCodes ("model_key"), PyVal.str model_key),
   (sCodes ("max_tokens"), prompt.max_tokens),
   (sCodes ("temperature"), prompt.temperature),
   (sCodes ("top_p"), prompt.top_p),
   (sCodes ("presence_penalty"), prompt.presence_penalty),
   (sCodes ("frequency_penalty"), prompt.frequency_penalty),
   (sCodes ("add_bos_token"), PyVal.str (pyStr prompt.add_bos_token)),
   (sCodes ("echo"), PyVal.bool prompt.echo),
   (sCodes ("add_special_tokens"), PyVal.bool prompt.add_special_tokens),
   (sCodes ("has_internals_request"), PyVal.bool prompt.model_internals_request.isSome),
   (sCodes ("stop"), PyVal.str (pyOptListStr prompt.stop))]

/-- Translation of `prompt_to_sample_params_hash`: base64 of the xxh64
digest of the dict string, padded or truncated to exactly
`_text_and_sample_hash_len - _text_hash_len` characters. -/
def prompt_to_sample_params_hash (prompt : LmPrompt) (model_key : List Nat) : List Nat :=
  let target_len := _text_and_sample_hash_len - _text_hash_len
  let hash := b64encode (digestBytes (xxh64
    (utf8Encode (pyDictStr (prompt_to_only_sample_class_dict prompt model_key))) 0))
  if hash.length < target_len then hash ++ List.replicate (target_len - hash.length) 95
  else if target_len < hash.length then hash.take target_len
  else hash

/-- Translation of `prompt_to_sample_hash_text`: the text key followed by
the parameter-hash segment. -/
def prompt_to_sample_hash_text (prompt : LmPrompt) (model_key : List Nat) : List Nat :=
  prompt_to_text_hash prompt ++ prompt_to_sample_params_hash prompt model_key

/-! ## The three tables and the SQL statements (`sqlcache.py` lines 45-88)

Row order models SQLite scan order for these append-only tables:
inserted rows are appended, `fetchone` returns the first row in that
order.  Lazy schema creation (`create_tables`) touches no rows of an
existing database and is not part of the row-level state. -/

/-- Row of `CacheLmPromptText`. -/
structure PromptTextRow where
  text_hash : List Nat
  text : List Nat
deriving DecidableEq

/-- Row of `CacheLmPromptSampleParams`, with the Python values bound by
the source `INSERT`. -/
structure SampleParamsRow where
  text_hash : List Nat
  sample_hash : List Nat
  model_key : List Nat
  max_tokens : PyVal
  temperature : PyVal
  top_p : PyVal
  presence_penalty : PyVal
  frequency_penalty : PyVal
  add_bos_token : List Nat
  echo : Bool
  add_special_tokens : Bool
  has_internals_request : Bool
  stop : List Nat
deriving DecidableEq

/-- Row of `CacheLmPrediction`. -/
structure PredictionRow where
  sample_params : List Nat
  base_class : List Nat
  completion_text : List Nat
  metad_bytes : List Nat
  date_added : List Nat
deriving DecidableEq

/-- The cache database: the rows of the three tables in insertion
order. -/
structure CacheDb where
  promptText : List PromptTextRow
  sampleParams : List SampleParamsRow
  predictions : List PredictionRow
deriving DecidableEq

/-- The database with no rows (the state just after `create_tables` on a
fresh file). -/
def emptyDb : CacheDb :=
  { promptText := [], sampleParams := [], predictions := [] }

/-- The SQL statements that `sqlcache.py` executes against the three
tables. -/
inductive SqlStmt where
  | beginTx
  | insertOrIgnorePromptText (text_hash text : List Nat)
  | insertOrIgnoreSampleParams (row : SampleParamsRow)
  | insertPrediction (row : PredictionRow)
  | selectPredictionWhere (sample_hash : List Nat)
  | selectCountSampleParamsWhere (text_hash : List Nat)
  | deletePredictionsWhere (sample_hash : List Nat)
  | deleteSampleParamsWhere (sample_hash : List Nat)
  | deletePromptTextWhere (text_hash : List Nat)

/-- Effect of one SQL statement on the table rows.  `INSERT OR IGNORE`
on a primary key is a no-op when a row with that key exists; `DELETE ...
WHERE` removes every matching row; `BEGIN` and `SELECT` leave the rows
unchanged. -/
def execStmt : SqlStmt → CacheDb → CacheDb
  | SqlStmt.beginTx, db => db
  | SqlStmt.insertOrIgnorePromptText th text, db =>
    if db.promptText.any (fun r => r.text_hash = th) then db
    else { db with promptText := db.promptText ++ [{ text_hash := th, text := text }] }
  | SqlStmt.insertOrIgnoreSampleParams row, db =>
    if db.sampleParams.any (fun r => r.sample_hash = row.sample_hash) then db
    else { db with sampleParams := db.sampleParams ++ [row] }
  | SqlStmt.insertPrediction row, db =>
    { db with predictions := db.predictions ++ [row] }
  | SqlStmt.selectPredictionWhere _, db => db
  | SqlStmt.selectCountSampleParamsWhere _, db => db
  | SqlStmt.deletePredictionsWhere sh, db =>
    { db with predictions := db.predictions.filter (fun r => ¬ r.sample_params = sh) }
  | SqlStmt.deleteSampleParamsWhere sh, db =>
    { db with sampleParams := db.sampleParams.filter (fun r => ¬ r.sample_hash = sh) }
  | SqlStmt.deletePromptTextWhere th, db =>
    { db with promptText := db.promptText.filter (fun r => ¬ r.text_hash = th) }

/-- Effect of a statement sequence. -/
def execStmts (stmts : List SqlStmt) (db : CacheDb) : CacheDb :=
  stmts.foldl (fun db s => execStmt s db) db

/-- Whether a statement mutates rows (anything other than `BEGIN` or a
`SELECT`). -/
def isWriteStmt : SqlStmt → Bool
  | SqlStmt.beginTx => false
  | SqlStmt.selectPredictionWhere _ => false
  | SqlStmt.selectCountSampleParamsWhere _ => false
  | _ => true

/-! ## Cache store operations (`sqlcache.py` lines 137-268) -/

/-- The `CacheLmPromptSampleParams` row bound by the source `INSERT`
statements, built from the parameter dict of the prompt. -/
def mkSampleParamsRow (prompt : LmPrompt) (model_key : List Nat)
    (text_hash sample_hash : List Nat) : SampleParamsRow :=
  { text_hash := text_hash
    sample_hash := sample_hash
    model_key := model_key
    max_tokens := prompt.max_tokens
    temperature := prompt.temperature
    top_p := prompt.top_p
    presence_penalty := prompt.presence_penalty
    frequency_penalty := prompt.frequency_penalty
    add_bos_token := pyStr prompt.add_bos_token
    echo := prompt.echo
    add_special_tokens := prompt.add_special_tokens
    has_internals_request := prompt.model_internals_request.isSome
    stop := pyOptListStr prompt.stop }

/-- Translation of `create_from_prompt_text` (the spec's `upsertText`):
insert-if-absent into `CacheLmPromptText`, returning the text hash
either way. -/
def create_from_prompt_text (prompt : LmPrompt) (db : CacheDb) : List Nat × CacheDb :=
  let text_hash := prompt_to_text_hash prompt
  (text_hash, execStmt (SqlStmt.insertOrIgnorePromptText text_hash prompt.text) db)

/-- Translation of `create_from_prompt_sample_params` (the spec's
`upsertSampleParams`): `create_from_prompt_text` first, then
insert-if-absent into `CacheLmPromptSampleParams`, returning the sample
hash either way. -/
def create_from_prompt_sample_params (prompt : LmPrompt) (model_key : List Nat)
    (db : CacheDb) : List Nat × CacheDb :=
  let r := create_from_prompt_text prompt db
  let sample_hash := prompt_to_sample_hash_text prompt model_key
  (sample_hash,
    execStmt (SqlStmt.insertOrIgnoreSampleParams
      (mkSampleParamsRow prompt model_key r.1 sample_hash)) r.2)

/-- Statement list of `add_prediction_to_cache`, executed through a
single `execute_query` call: one `BEGIN`, the two insert-if-absent
statements, the unconditional prediction insert, then one commit (the
connection rolls the whole list back if any statement fails).
`date_added` (`datetime.now().isoformat()`) enters as the `now`
argument. -/
def add_prediction_stmts (prediction : LmPrediction) (model_key now : List Nat) :
    List SqlStmt :=
  let sample_hash := prompt_to_sample_hash_text prediction.prompt model_key
  let text_hash := prompt_to_text_hash prediction.prompt
  [SqlStmt.beginTx,
   SqlStmt.insertOrIgnorePromptText text_hash prediction.prompt.text,
   SqlStmt.insertOrIgnoreSampleParams
     (mkSampleParamsRow prediction.prompt model_key text_hash sample_hash),
   SqlStmt.insertPrediction
     { sample_params := sample_hash
       base_class := prediction.base_class
       completion_text := prediction.completion_text
       metad_bytes := prediction.metad
       date_added := now }]

/-- Translation of `add_prediction_to_cache` (the spec's
`recordResult`). -/
def add_prediction_to_cache (prediction : LmPrediction) (model_key now : List Nat)
    (db : CacheDb) : CacheDb :=
  execStmts (add_prediction_stmts prediction model_key now) db

/-- Translation of `get_from_cache` (the spec's `lookup`): a single
point `SELECT` on `CacheLmPrediction`; `fetchone` is the first row in
scan order; an absent row is `none`, a present row is rebuilt through
`find_prediction_class(prompt).parse_from_cache`. -/
def get_from_cache (prompt : LmPrompt) (lm : LmPredictor) (db : CacheDb) :
    Option LmPrediction :=
  let sample_hash := prompt_to_sample_hash_text prompt lm.model_cache_key
  match db.predictions.find? (fun r => r.sample_params = sample_hash) with
  | Option.none => Option.none
  | Option.some r =>
    Option.some (parse_from_cache (lm.prediction_class_name prompt)
      r.completion_text prompt r.metad_bytes)

/-- Statement list executed by `get_from_cache` against the table rows:
only the point `SELECT`. -/
def get_from_cache_stmts (prompt : LmPrompt) (lm : LmPredictor) : List SqlStmt :=
  [SqlStmt.selectPredictionWhere (prompt_to_sample_hash_text prompt lm.model_cache_key)]

/-- Translation of `SqlBackedCache.__contains__`: `get_from_cache`
produced a row. -/
def SqlBackedCache.contains (prompt : LmPrompt) (lm : LmPredictor) (db : CacheDb) : Bool :=
  (get_from_cache prompt lm db).isSome

/-- Statement list executed by `SqlBackedCache.__contains__`: exactly
those of `get_from_cache`. -/
def contains_stmts (prompt : LmPrompt) (lm : LmPredictor) : List SqlStmt :=
  get_from_cache_stmts prompt lm

/-- First committed unit of `SqlBackedCache.delete`: the deletes on
`CacheLmPrediction` and `CacheLmPromptSampleParams`, committed together
by the first `conn.commit()`. -/
def delete_commit1 (prompt : LmPrompt) (lm : LmPredictor) (db : CacheDb) : CacheDb :=
  let sample_hash := prompt_to_sample_hash_text prompt lm.model_cache_key
  execStmts [SqlStmt.deletePredictionsWhere sample_hash,
             SqlStmt.deleteSampleParamsWhere sample_hash] db

/-- Translation of `SqlBackedCache.delete` (the spec's `deleteResult`).
The returned flag is `cursor.rowcount > 0` read after the second
`DELETE`, i.e. the number of `CacheLmPromptSampleParams` rows that
delete removed.  The orphan check then deletes the `CacheLmPromptText`
row when no remaining `CacheLmPromptSampleParams` row references its
text hash, under a second `conn.commit()`. -/
def SqlBackedCache.delete (prompt : LmPrompt) (lm : LmPredictor) (db : CacheDb) :
    CacheDb × Bool :=
  let sample_hash := prompt_to_sample_hash_text prompt lm.model_cache_key
  let dbA := execStmt (SqlStmt.deletePredictionsWhere sample_hash) db
  let db1 := execStmt (SqlStmt.deleteSampleParamsWhere sample_hash) dbA
  let data_deleted := 0 < dbA.sampleParams.countP (fun r => r.sample_hash = sample_hash)
  let text_hash := prompt_to_text_hash prompt
  let db2 :=
    if db1.sampleParams.countP (fun r => r.text_hash = text_hash) = 0 then
      execStmt (SqlStmt.deletePromptTextWhere text_hash) db1
    else db1
  (db2, data_deleted)

/-- Durable states of `add_prediction_to_cache`: the source executes its
whole statement list under a single commit, so the only states the store
can hold durably are the initial state and the state after that
commit. -/
def add_prediction_commits (prediction : LmPrediction) (model_key now : List Nat)
    (db : CacheDb) : List CacheDb :=
  [db, add_prediction_to_cache prediction model_key now db]

/-- Durable states of `SqlBackedCache.delete`: the initial state, the
state after the first `conn.commit()` (predictions and sample-parameter
rows deleted), and the state after the second `conn.commit()` (orphan
prompt-text cleanup applied). -/
def delete_commits (prompt : LmPrompt) (lm : LmPredictor) (db : CacheDb) : List CacheDb :=
  [db, delete_commit1 prompt lm db, (SqlBackedCache.delete prompt lm db).1]

/-! ## Supporting definitions for the theorems -/

/-- Definition following the spec's words (§4.1): the text key takes the
first `k` and last `m` characters of the text (the latter reversed),
where `k` is the integer third of the width budget left by the digest
and the remainder `m` goes to the end fragment, appends the base64
digest, and pads with the filler character up to the 32-character target
width.  Compared against the source translation in claim C8. -/
def textKeySpec (prompt : LmPrompt) : List Nat :=
  let text := prompt.text
  let digest := b64encode (digestBytes (xxh64 (utf8Encode text) 0))
  let budget := 32 - digest.length
  let k := budget / 3
  let m := budget - k
  let key := text.take k ++ (text.drop (text.length - m)).reverse ++ digest
  key ++ List.replicate (32 - key.length) 95

/-- Primary-key integrity of the stored tables, as SQLite enforces it
for the `PRIMARY KEY` columns `text_hash` and `sample_hash`: no two rows
share a key.  Every reachable database state satisfies it. -/
def PrimaryKeysOk (db : CacheDb) : Prop :=
  db.promptText.Pairwise (fun a b => a.text_hash ≠ b.text_hash) ∧
  db.sampleParams.Pairwise (fun a b => a.sample_hash ≠ b.sample_hash)

/-- A prompt with the given text and all optional sampling fields
absent. -/
def promptOfText (t : List Nat) : LmPrompt :=
  { text := t
    max_tokens := PyVal.none
    temperature := PyVal.none
    top_p := PyVal.none
    presence_penalty := PyVal.none
    frequency_penalty := PyVal.none
    add_bos_token := PyVal.none
    echo := false
    add_special_tokens := false
    model_internals_request := Option.none
    stop := Option.none }

/-- Concrete prompt used by the witnesses (the spec's §8 scenario). -/
def samplePromptA : LmPrompt :=
  { text := sCodes ("Once upon a")
    max_tokens := PyVal.int 1
    temperature := PyVal.int 0
    top_p := PyVal.int 1
    presence_penalty := PyVal.int 0
    frequency_penalty := PyVal.int 0
    add_bos_token := PyVal.none
    echo := false
    add_special_tokens := true
    model_internals_request := Option.none
    stop := Option.none }

/-- Concrete prompt sharing `samplePromptA`'s text but with a different
temperature. -/
def samplePromptB : LmPrompt :=
  { samplePromptA with temperature := PyVal.int 1 }

/-- Concrete model collaborator used by the witnesses. -/
def sampleLm : LmPredictor :=
  { model_cache_key := sCodes ("test-model")
    prediction_class_name := fun _ => sCodes ("LmPrediction") }

/-- Concrete prediction answering `samplePromptA`. -/
def samplePredA : LmPrediction :=
  { prompt := samplePromptA
    base_class := sCodes ("LmPrediction")
    completion_text := sCodes (" time")
    metad := [10, 32, 116, 105, 109, 101, 93] }

/-- Concrete prediction answering `samplePromptB`. -/
def samplePredB : LmPrediction :=
  { prompt := samplePromptB
    base_class := sCodes ("LmPrediction")
    completion_text := sCodes (" time")
    metad := [10, 32, 116, 105, 109, 101, 94] }

/-- Concrete timestamp used by the witnesses. -/
def sampleNow : List Nat :=
  sCodes ("2026-10-12T00:00:00")

/-- Concrete database holding exactly `samplePredA`, used by the
counterexamples and witnesses. -/
def sampleDbA : CacheDb :=
  add_prediction_to_cache samplePredA (sampleLm.model_cache_key) sampleNow emptyDb

/-- Concrete database holding a sample-parameter row for `samplePromptA`
but no prediction row, reached through the store's public upsert. -/
def sampleDbSPOnly : CacheDb :=
  (create_from_prompt_sample_params samplePromptA (sampleLm.model_cache_key) emptyDb).2

/-! ## Helper lemmas -/

theorem b64_digest_len (h : Nat) : (b64encode (digestBytes h)).length = 12 := rfl

theorem take_min_self {A : Type _} (l : List A) (n : Nat) :
    l.take (min n l.length) = l.take n := by
  rcases Nat.le_total n l.length with h | h
  · rw [Nat.min_eq_left h]
  · rw [Nat.min_eq_right h, List.take_length, List.take_of_length_le h]

theorem pyNegTail_splice (text : List Nat) :
    pyNegTail text (min (20 - min 6 text.length) text.length)
      = text.drop (text.length - 14) := by
  unfold pyNegTail
  by_cases h0 : text.length = 0
  · have : text = [] := List.length_eq_zero.mp h0
    subst this
    simp
  · have hk : ¬ min (20 - min 6 text.length) text.length = 0 := by omega
    rw [if_neg hk]
    congr 1
    omega

theorem textHash_eq_spec (p : LmPrompt) : prompt_to_text_hash p = textKeySpec p := by
  have hb : (b64encode (digestBytes (xxh64 (utf8Encode p.text) 0))).length = 12 :=
    b64_digest_len _
  simp only [prompt_to_text_hash, textKeySpec, _text_hash_len, hb]
  norm_num
  simp only [inf_eq_min, hb, List.length_drop]
  rw [pyNegTail_splice]
  simp only [List.length_drop]
  rw [take_min_self]
  by_cases hc :
      min 6 p.text.length + (p.text.length - (p.text.length - 14) + 12) < 32
  · rw [if_pos hc]
  · rw [if_neg hc]
    have h32 :
        32 - (min 6 p.text.length + (p.text.length - (p.text.length - 14) + 12)) = 0 := by
      omega
    rw [h32]
    simp

theorem textHash_length (p : LmPrompt) : (prompt_to_text_hash p).length = 32 := by
  rw [textHash_eq_spec]
  simp only [textKeySpec, b64_digest_len, List.length_append, List.length_take,
    List.length_reverse, List.length_drop, List.length_replicate, inf_eq_min]
  omega

theorem textHash_congr (p q : LmPrompt) (h : p.text = q.text) :
    prompt_to_text_hash p = prompt_to_text_hash q := by
  simp only [prompt_to_text_hash, h]

theorem sampleParamsHash_eq_take (p : LmPrompt) (mk : List Nat) :
    prompt_to_sample_params_hash p mk
      = (b64encode (digestBytes (xxh64 (utf8Encode (pyDictStr
          (prompt_to_only_sample_class_dict p mk))) 0))).take 11 := by
  simp only [prompt_to_sample_params_hash, _text_and_sample_hash_len, _text_hash_len,
    b64_digest_len]
  norm_num

theorem sampleParamsHash_length (p : LmPrompt) (mk : List Nat) :
    (prompt_to_sample_params_hash p mk).length = 11 := by
  rw [sampleParamsHash_eq_take]
  simp [b64_digest_len]

theorem sampleHash_length (p : LmPrompt) (mk : List Nat) :
    (prompt_to_sample_hash_text p mk).length = 43 := by
  simp only [prompt_to_sample_hash_text, List.length_append, textHash_length,
    sampleParamsHash_length]

theorem take32_sampleHash (p : LmPrompt) (mk : List Nat) :
    (prompt_to_sample_hash_text p mk).take 32 = prompt_to_text_hash p := by
  rw [prompt_to_sample_hash_text, ← textHash_length p, List.take_left]

/-! ## Claim theorems for the fingerprint engine -/

/-- C7: the sample key is the 32-character text key concatenated with an
11-character parameter segment (the base64 digest truncated to 11
characters, the padding branch unreachable for an 8-byte digest), for a
43-character total; two requests with the same prompt text share the
32-character key prefix. -/
theorem C7_sample_key_structure (p : LmPrompt) (mk : List Nat) :
    prompt_to_sample_hash_text p mk
        = prompt_to_text_hash p ++ prompt_to_sample_params_hash p mk ∧
    prompt_to_sample_params_hash p mk
        = (b64encode (digestBytes (xxh64 (utf8Encode (pyDictStr
            (prompt_to_only_sample_class_dict p mk))) 0))).take 11 ∧
    (prompt_to_sample_params_hash p mk).length = 11 ∧
    (prompt_to_sample_hash_text p mk).length = 43 ∧
    ∀ (q : LmPrompt) (mk2 : List Nat), q.text = p.text →
      (prompt_to_sample_hash_text q mk2).take 32
        = (prompt_to_sample_hash_text p mk).take 32 := by
  refine ⟨rfl, sampleParamsHash_eq_take p mk, sampleParamsHash_length p mk,
    sampleHash_length p mk, ?_⟩
  intro q mk2 hq
  rw [take32_sampleHash, take32_sampleHash]
  exact textHash_congr q p hq

/-- Witness for C7 at concrete inputs: two prompts sharing text but
differing in temperature and model identity share the 32-character key
prefix. -/
theorem C7_sample_key_structure_witness :
    samplePromptB.text = samplePromptA.text ∧
    (prompt_to_sample_hash_text samplePromptB (sCodes ("other-model"))).take 32
      = (prompt_to_sample_hash_text samplePromptA (sampleLm.model_cache_key)).take 32 :=
  ⟨rfl, (C7_sample_key_structure samplePromptA (sampleLm.model_cache_key)).2.2.2.2
    samplePromptB (sCodes ("other-model")) rfl⟩

/-- C8: the text key has fixed width 32 for every prompt text (empty
and shorter-than-budget texts included), and equals the spec-side
description: leading fragment, reversed trailing fragment with the
integer-division remainder, base64 digest, filler padding. -/
theorem C8_text_key_fixed_width (p : LmPrompt) :
    (prompt_to_text_hash p).length = 32 ∧ prompt_to_text_hash p = textKeySpec p :=
  ⟨textHash_length p, textHash_eq_spec p⟩

/-- C9: key derivation is deterministic: the text key depends only on
the text, the sample key only on the text and the serialized parameter
dict; the empty text hashes to a fixed 32-character key; an absent
`add_bos_token` serializes identically to the explicit string `None`,
and an absent `stop` serializes to the sentinel string `None` in the
hashed dict. -/
theorem C9_key_determinism :
    (∀ p q : LmPrompt, p.text = q.text →
        prompt_to_text_hash p = prompt_to_text_hash q) ∧
    (∀ (p q : LmPrompt) (mk mk2 : List Nat), p.text = q.text →
        prompt_to_only_sample_class_dict p mk = prompt_to_only_sample_class_dict q mk2 →
        prompt_to_sample_hash_text p mk = prompt_to_sample_hash_text q mk2) ∧
    (∀ p : LmPrompt, p.text = [] →
        prompt_to_text_hash p = sCodes ("70bbN1HY6Zk=") ++ List.replicate 20 95) ∧
    (∀ (p : LmPrompt) (mk : List Nat),
        prompt_to_sample_hash_text { p with add_bos_token := PyVal.none } mk
          = prompt_to_sample_hash_text
              { p with add_bos_token := PyVal.str (sCodes ("None")) } mk) ∧
    (∀ (p : LmPrompt) (mk : List Nat), p.stop = Option.none →
        (sCodes ("stop"), PyVal.str (sCodes ("None")))
          ∈ prompt_to_only_sample_class_dict p mk) := by
  refine ⟨textHash_congr, ?_, ?_, ?_, ?_⟩
  · intro p q mk mk2 ht hd
    simp only [prompt_to_sample_hash_text, prompt_to_sample_params_hash, hd,
      textHash_congr p q ht]
  · intro p h
    rw [textHash_congr p (promptOfText []) (by simp [promptOfText, h])]
    decide
  · intro p mk
    rfl
  · intro p mk h
    simp [prompt_to_only_sample_class_dict, pyOptListStr, h]

/-- Witness for C9 at a concrete input: the prompt with empty text
hashes to the fixed empty-text key. -/
theorem C9_key_determinism_witness :
    (promptOfText []).text = [] ∧
    prompt_to_text_hash (promptOfText [])
      = sCodes ("70bbN1HY6Zk=") ++ List.replicate 20 95 :=
  ⟨rfl, C9_key_determinism.2.2.1 (promptOfText []) rfl⟩

/-! ## Frame and effect lemmas for single statements -/

theorem beginTx_eq (db : CacheDb) : execStmt SqlStmt.beginTx db = db := rfl

theorem iPT_PT (th t : List Nat) (db : CacheDb) :
    (execStmt (SqlStmt.insertOrIgnorePromptText th t) db).promptText
      = if db.promptText.any (fun r => r.text_hash = th) then db.promptText
        else db.promptText ++ [{ text_hash := th, text := t }] := by
  simp only [execStmt, apply_ite CacheDb.promptText]

theorem iPT_SP (th t : List Nat) (db : CacheDb) :
    (execStmt (SqlStmt.insertOrIgnorePromptText th t) db).sampleParams
      = db.sampleParams := by
  simp [execStmt, apply_ite CacheDb.sampleParams]

theorem iPT_preds (th t : List Nat) (db : CacheDb) :
    (execStmt (SqlStmt.insertOrIgnorePromptText th t) db).predictions
      = db.predictions := by
  simp [execStmt, apply_ite CacheDb.predictions]

theorem iSP_SP (row : SampleParamsRow) (db : CacheDb) :
    (execStmt (SqlStmt.insertOrIgnoreSampleParams row) db).sampleParams
      = if db.sampleParams.any (fun r => r.sample_hash = row.sample_hash) then
          db.sampleParams
        else db.sampleParams ++ [row] := by
  simp only [execStmt, apply_ite CacheDb.sampleParams]

theorem iSP_PT (row : SampleParamsRow) (db : CacheDb) :
    (execStmt (SqlStmt.insertOrIgnoreSampleParams row) db).promptText
      = db.promptText := by
  simp [execStmt, apply_ite CacheDb.promptText]

theorem iSP_preds (row : SampleParamsRow) (db : CacheDb) :
    (execStmt (SqlStmt.insertOrIgnoreSampleParams row) db).predictions
      = db.predictions := by
  simp [execStmt, apply_ite CacheDb.predictions]

theorem iPT_noop (th t : List Nat) (db : CacheDb)
    (h : db.promptText.any (fun r => r.text_hash = th) = true) :
    execStmt (SqlStmt.insertOrIgnorePromptText th t) db = db := by
  simp only [execStmt, h, if_true]

theorem iSP_noop (row : SampleParamsRow) (db : CacheDb)
    (h : db.sampleParams.any (fun r => r.sample_hash = row.sample_hash) = true) :
    execStmt (SqlStmt.insertOrIgnoreSampleParams row) db = db := by
  simp only [execStmt, h, if_true]

theorem iPred_preds (row : PredictionRow) (db : CacheDb) :
    (execStmt (SqlStmt.insertPrediction row) db).predictions
      = db.predictions ++ [row] := rfl

theorem delPred_preds (sh : List Nat) (db : CacheDb) :
    (execStmt (SqlStmt.deletePredictionsWhere sh) db).predictions
      = db.predictions.filter (fun r => ¬ r.sample_params = sh) := rfl

theorem delPred_PT (sh : List Nat) (db : CacheDb) :
    (execStmt (SqlStmt.deletePredictionsWhere sh) db).promptText = db.promptText := rfl

theorem delPred_SP (sh : List Nat) (db : CacheDb) :
    (execStmt (SqlStmt.deletePredictionsWhere sh) db).sampleParams = db.sampleParams := rfl

theorem delSP_SP (sh : List Nat) (db : CacheDb) :
    (execStmt (SqlStmt.deleteSampleParamsWhere sh) db).sampleParams
      = db.sampleParams.filter (fun r => ¬ r.sample_hash = sh) := rfl

theorem delSP_PT (sh : List Nat) (db : CacheDb) :
    (execStmt (SqlStmt.deleteSampleParamsWhere sh) db).promptText = db.promptText := rfl

theorem delSP_preds (sh : List Nat) (db : CacheDb) :
    (execStmt (SqlStmt.deleteSampleParamsWhere sh) db).predictions = db.predictions := rfl

theorem delPT_PT (th : List Nat) (db : CacheDb) :
    (execStmt (SqlStmt.deletePromptTextWhere th) db).promptText
      = db.promptText.filter (fun r => ¬ r.text_hash = th) := rfl

theorem delPT_SP (th : List Nat) (db : CacheDb) :
    (execStmt (SqlStmt.deletePromptTextWhere th) db).sampleParams = db.sampleParams := rfl

theorem delPT_preds (th : List Nat) (db : CacheDb) :
    (execStmt (SqlStmt.deletePromptTextWhere th) db).predictions = db.predictions := rfl

/-! ## Effect of the compound operations -/

theorem add_predictions_eq (pred : LmPrediction) (mk now : List Nat) (db : CacheDb) :
    (add_prediction_to_cache pred mk now db).predictions
      = db.predictions ++
        [{ sample_params := prompt_to_sample_hash_text pred.prompt mk
           base_class := pred.base_class
           completion_text := pred.completion_text
           metad_bytes := pred.metad
           date_added := now }] := by
  simp only [add_prediction_to_cache, add_prediction_stmts, execStmts, List.foldl_cons,
    List.foldl_nil, beginTx_eq, iPred_preds, iSP_preds, iPT_preds]

theorem delete_fst_predictions (p : LmPrompt) (lm : LmPredictor) (db : CacheDb) :
    (SqlBackedCache.delete p lm db).1.predictions
      = db.predictions.filter
          (fun r => ¬ r.sample_params = prompt_to_sample_hash_text p lm.model_cache_key) := by
  simp only [SqlBackedCache.delete]
  split
  · rw [delPT_preds, delSP_preds, delPred_preds]
  · rw [delSP_preds, delPred_preds]

theorem delete_fst_sampleParams (p : LmPrompt) (lm : LmPredictor) (db : CacheDb) :
    (SqlBackedCache.delete p lm db).1.sampleParams
      = db.sampleParams.filter
          (fun r => ¬ r.sample_hash = prompt_to_sample_hash_text p lm.model_cache_key) := by
  simp only [SqlBackedCache.delete]
  split
  · rw [delPT_SP, delSP_SP, delPred_SP]
  · rw [delSP_SP, delPred_SP]

/-! ## Claim theorems for the cache store -/

/-- C1: after `add_prediction_to_cache` stores a prediction under a
model identity, `get_from_cache` for the same prompt and model identity
returns a present record whose completion text and metadata bytes equal
the stored prediction's, provided no other record with the same sample
key was already present. -/
theorem C1_insert_then_lookup (pred : LmPrediction) (lm : LmPredictor)
    (now : List Nat) (db : CacheDb)
    (hfresh : ∀ r ∈ db.predictions,
      r.sample_params ≠ prompt_to_sample_hash_text pred.prompt lm.model_cache_key) :
    ∃ q, get_from_cache pred.prompt lm
        (add_prediction_to_cache pred lm.model_cache_key now db) = Option.some q ∧
      q.completion_text = pred.completion_text ∧ q.metad = pred.metad := by
  simp only [get_from_cache]
  rw [add_predictions_eq, List.find?_append]
  have h1 : db.predictions.find?
      (fun r => r.sample_params = prompt_to_sample_hash_text pred.prompt lm.model_cache_key)
      = Option.none := by
    rw [List.find?_eq_none]
    intro x hx
    simpa using hfresh x hx
  rw [h1]
  simp only [Option.none_or, List.find?_cons, List.find?_nil, decide_True]
  exact ⟨_, rfl, rfl, rfl⟩

/-- Witness for C1 at concrete inputs (an empty starting database). -/
theorem C1_insert_then_lookup_witness :
    (∀ r ∈ emptyDb.predictions,
      r.sample_params
        ≠ prompt_to_sample_hash_text samplePredA.prompt sampleLm.model_cache_key) ∧
    ∃ q, get_from_cache samplePredA.prompt sampleLm
        (add_prediction_to_cache samplePredA (sampleLm.model_cache_key) sampleNow emptyDb)
          = Option.some q ∧
      q.completion_text = samplePredA.completion_text ∧ q.metad = samplePredA.metad :=
  ⟨by simp [emptyDb],
    C1_insert_then_lookup samplePredA sampleLm sampleNow emptyDb (by simp [emptyDb])⟩

/-- C4: whenever `SqlBackedCache.delete` reports a deletion, an
immediately following `get_from_cache` for the same request is absent;
the delete removes every matching prediction row. -/
theorem C4_delete_then_lookup (p : LmPrompt) (lm : LmPredictor) (db : CacheDb)
    (_h : (SqlBackedCache.delete p lm db).2 = true) :
    get_from_cache p lm (SqlBackedCache.delete p lm db).1 = Option.none := by
  simp only [get_from_cache]
  rw [delete_fst_predictions]
  have hn : (db.predictions.filter
      (fun r => ¬ r.sample_params = prompt_to_sample_hash_text p lm.model_cache_key)).find?
      (fun r => r.sample_params = prompt_to_sample_hash_text p lm.model_cache_key)
      = Option.none := by
    rw [List.find?_eq_none]
    intro x hx
    rcases List.mem_filter.mp hx with ⟨_, hpx⟩
    simpa using hpx
  rw [hn]

/-- Witness for C4 at concrete inputs: two records share the sample key
and both are removed. -/
theorem C4_delete_then_lookup_witness :
    (SqlBackedCache.delete samplePromptA sampleLm
        (add_prediction_to_cache samplePredA (sampleLm.model_cache_key) sampleNow
          sampleDbA)).2 = true ∧
    get_from_cache samplePromptA sampleLm
        (SqlBackedCache.delete samplePromptA sampleLm
          (add_prediction_to_cache samplePredA (sampleLm.model_cache_key) sampleNow
            sampleDbA)).1 = Option.none :=
  ⟨by decide,
    C4_delete_then_lookup samplePromptA sampleLm
      (add_prediction_to_cache samplePredA (sampleLm.model_cache_key) sampleNow sampleDbA)
      (by decide)⟩

/-! ## Counting helpers for primary-key tables -/

theorem countP_key_le_one {A : Type _} (f : A → List Nat) (k : List Nat) :
    ∀ l : List A, l.Pairwise (fun a b => f a ≠ f b) →
      l.countP (fun a => f a = k) ≤ 1 := by
  intro l
  induction l with
  | nil => intro _; simp
  | cons x xs ih =>
    intro hl
    rcases List.pairwise_cons.mp hl with ⟨hx, hxs⟩
    rw [List.countP_cons]
    by_cases hxk : f x = k
    · have h0 : xs.countP (fun a => f a = k) = 0 := by
        rw [List.countP_eq_zero]
        intro a ha
        simp only [decide_eq_true_eq]
        intro e
        exact hx a ha (by rw [hxk, e])
      simp [h0, hxk]
    · simp only [hxk, decide_False, if_false]
      simpa using ih hxs

theorem countP_key_eq_one {A : Type _} (f : A → List Nat) (k : List Nat) (l : List A)
    (hpw : l.Pairwise (fun a b => f a ≠ f b))
    (hany : l.any (fun a => f a = k) = true) :
    l.countP (fun a => f a = k) = 1 := by
  refine le_antisymm (countP_key_le_one f k l hpw) ?_
  rcases List.any_eq_true.mp hany with ⟨a, ha, hpa⟩
  exact List.countP_pos_iff.mpr ⟨a, ha, hpa⟩

/-- C6: `create_from_prompt_sample_params` is idempotent on a database
with intact primary keys: the second identical call returns the same key
and leaves the database unchanged, and after the calls exactly one
sample-parameter row carries the sample hash and exactly one prompt-text
row carries the text hash. -/
theorem C6_upsert_idempotent (p : LmPrompt) (mk : List Nat) (db : CacheDb)
    (hpk : PrimaryKeysOk db) :
    (create_from_prompt_sample_params p mk
        (create_from_prompt_sample_params p mk db).2).1
      = (create_from_prompt_sample_params p mk db).1 ∧
    (create_from_prompt_sample_params p mk
        (create_from_prompt_sample_params p mk db).2).2
      = (create_from_prompt_sample_params p mk db).2 ∧
    ((create_from_prompt_sample_params p mk db).2).sampleParams.countP
        (fun r => r.sample_hash = prompt_to_sample_hash_text p mk) = 1 ∧
    ((create_from_prompt_sample_params p mk db).2).promptText.countP
        (fun r => r.text_hash = prompt_to_text_hash p) = 1 := by
  obtain ⟨hpt, hsp⟩ := hpk
  have hPT1 : ((create_from_prompt_sample_params p mk db).2).promptText
      = if db.promptText.any (fun r => r.text_hash = prompt_to_text_hash p) then
          db.promptText
        else db.promptText ++ [{ text_hash := prompt_to_text_hash p, text := p.text }] := by
    simp only [create_from_prompt_sample_params, create_from_prompt_text, iSP_PT, iPT_PT]
  have hSP1 : ((create_from_prompt_sample_params p mk db).2).sampleParams
      = if db.sampleParams.any
            (fun r => r.sample_hash = prompt_to_sample_hash_text p mk) then
          db.sampleParams
        else db.sampleParams ++
          [mkSampleParamsRow p mk (prompt_to_text_hash p)
            (prompt_to_sample_hash_text p mk)] := by
    simp only [create_from_prompt_sample_params, create_from_prompt_text, iSP_SP, iPT_SP,
      mkSampleParamsRow]
  have hanyPT : ((create_from_prompt_sample_params p mk db).2).promptText.any
      (fun r => r.text_hash = prompt_to_text_hash p) = true := by
    rw [hPT1]
    by_cases c : db.promptText.any (fun r => r.text_hash = prompt_to_text_hash p) = true
    · rw [if_pos c]
      exact c
    · rw [if_neg c]
      simp [List.any_append]
  have hanySP : ((create_from_prompt_sample_params p mk db).2).sampleParams.any
      (fun r => r.sample_hash = prompt_to_sample_hash_text p mk) = true := by
    rw [hSP1]
    by_cases c : db.sampleParams.any
        (fun r => r.sample_hash = prompt_to_sample_hash_text p mk) = true
    · rw [if_pos c]
      exact c
    · rw [if_neg c]
      simp [List.any_append, mkSampleParamsRow]
  refine ⟨rfl, ?_, ?_, ?_⟩
  · have hstep : (create_from_prompt_sample_params p mk
        (create_from_prompt_sample_params p mk db).2).2
        = execStmt (SqlStmt.insertOrIgnoreSampleParams (mkSampleParamsRow p mk
            (prompt_to_text_hash p) (prompt_to_sample_hash_text p mk)))
          (execStmt (SqlStmt.insertOrIgnorePromptText (prompt_to_text_hash p) p.text)
            (create_from_prompt_sample_params p mk db).2) := rfl
    rw [hstep, iPT_noop _ _ _ hanyPT]
    exact iSP_noop _ _ (by simpa [mkSampleParamsRow] using hanySP)
  · rw [hSP1]
    by_cases c : db.sampleParams.any
        (fun r => r.sample_hash = prompt_to_sample_hash_text p mk) = true
    · rw [if_pos c]
      exact countP_key_eq_one (fun r : SampleParamsRow => r.sample_hash) _ _ hsp c
    · rw [if_neg c, List.countP_append]
      have h0 : db.sampleParams.countP
          (fun r => r.sample_hash = prompt_to_sample_hash_text p mk) = 0 := by
        rw [List.countP_eq_zero]
        intro a ha hpa
        exact c (List.any_eq_true.mpr ⟨a, ha, hpa⟩)
      rw [h0]
      simp [List.countP_cons, mkSampleParamsRow]
  · rw [hPT1]
    by_cases c : db.promptText.any (fun r => r.text_hash = prompt_to_text_hash p) = true
    · rw [if_pos c]
      exact countP_key_eq_one (fun r : PromptTextRow => r.text_hash) _ _ hpt c
    · rw [if_neg c, List.countP_append]
      have h0 : db.promptText.countP
          (fun r => r.text_hash = prompt_to_text_hash p) = 0 := by
        rw [List.countP_eq_zero]
        intro a ha hpa
        exact c (List.any_eq_true.mpr ⟨a, ha, hpa⟩)
      rw [h0]
      simp [List.countP_cons]

/-- Witness for C6 at concrete inputs (the empty database). -/
theorem C6_upsert_idempotent_witness :
    PrimaryKeysOk emptyDb ∧
    (create_from_prompt_sample_params samplePromptA (sCodes ("test-model"))
        (create_from_prompt_sample_params samplePromptA (sCodes ("test-model")) emptyDb).2).2
      = (create_from_prompt_sample_params samplePromptA (sCodes ("test-model")) emptyDb).2 :=
  ⟨⟨List.Pairwise.nil, List.Pairwise.nil⟩,
    (C6_upsert_idempotent samplePromptA (sCodes ("test-model")) emptyDb
      ⟨List.Pairwise.nil, List.Pairwise.nil⟩).2.1⟩

theorem iPred_PT (row : PredictionRow) (db : CacheDb) :
    (execStmt (SqlStmt.insertPrediction row) db).promptText = db.promptText := rfl

theorem iPred_SP (row : PredictionRow) (db : CacheDb) :
    (execStmt (SqlStmt.insertPrediction row) db).sampleParams = db.sampleParams := rfl

theorem add_PT_eq (pred : LmPrediction) (mk now : List Nat) (db : CacheDb) :
    (add_prediction_to_cache pred mk now db).promptText
      = if db.promptText.any (fun r => r.text_hash = prompt_to_text_hash pred.prompt) then
          db.promptText
        else db.promptText ++
          [{ text_hash := prompt_to_text_hash pred.prompt, text := pred.prompt.text }] := by
  simp only [add_prediction_to_cache, add_prediction_stmts, execStmts, List.foldl_cons,
    List.foldl_nil, beginTx_eq, iPred_PT, iSP_PT, iPT_PT]

theorem add_SP_eq (pred : LmPrediction) (mk now : List Nat) (db : CacheDb) :
    (add_prediction_to_cache pred mk now db).sampleParams
      = if db.sampleParams.any
            (fun r => r.sample_hash = prompt_to_sample_hash_text pred.prompt mk) then
          db.sampleParams
        else db.sampleParams ++
          [mkSampleParamsRow pred.prompt mk (prompt_to_text_hash pred.prompt)
            (prompt_to_sample_hash_text pred.prompt mk)] := by
  simp only [add_prediction_to_cache, add_prediction_stmts, execStmts, List.foldl_cons,
    List.foldl_nil, beginTx_eq, iPred_SP, iSP_SP, iPT_SP, mkSampleParamsRow]

theorem delete_commit1_PT (p : LmPrompt) (lm : LmPredictor) (db : CacheDb) :
    (delete_commit1 p lm db).promptText = db.promptText := by
  simp only [delete_commit1, execStmts, List.foldl_cons, List.foldl_nil, delSP_PT,
    delPred_PT]

theorem delete_commit1_SP (p : LmPrompt) (lm : LmPredictor) (db : CacheDb) :
    (delete_commit1 p lm db).sampleParams
      = db.sampleParams.filter
          (fun r => ¬ r.sample_hash = prompt_to_sample_hash_text p lm.model_cache_key) := by
  simp only [delete_commit1, execStmts, List.foldl_cons, List.foldl_nil, delSP_SP,
    delPred_SP]

theorem delete_commit1_preds (p : LmPrompt) (lm : LmPredictor) (db : CacheDb) :
    (delete_commit1 p lm db).predictions
      = db.predictions.filter
          (fun r => ¬ r.sample_params = prompt_to_sample_hash_text p lm.model_cache_key) := by
  simp only [delete_commit1, execStmts, List.foldl_cons, List.foldl_nil, delSP_preds,
    delPred_preds]

theorem delete_fst_structure (p : LmPrompt) (lm : LmPredictor) (db : CacheDb) :
    (SqlBackedCache.delete p lm db).1
      = if (delete_commit1 p lm db).sampleParams.countP
            (fun r => r.text_hash = prompt_to_text_hash p) = 0 then
          execStmt (SqlStmt.deletePromptTextWhere (prompt_to_text_hash p))
            (delete_commit1 p lm db)
        else delete_commit1 p lm db := rfl

theorem delete_fst_PT (p : LmPrompt) (lm : LmPredictor) (db : CacheDb) :
    (SqlBackedCache.delete p lm db).1.promptText
      = if (db.sampleParams.filter
              (fun r => ¬ r.sample_hash = prompt_to_sample_hash_text p lm.model_cache_key)).countP
            (fun r => r.text_hash = prompt_to_text_hash p) = 0 then
          db.promptText.filter (fun r => ¬ r.text_hash = prompt_to_text_hash p)
        else db.promptText := by
  rw [delete_fst_structure]
  by_cases c : (delete_commit1 p lm db).sampleParams.countP
      (fun r => r.text_hash = prompt_to_text_hash p) = 0
  · rw [if_pos c, delPT_PT, delete_commit1_PT,
      if_pos (by rw [← delete_commit1_SP p lm db]; exact c)]
  · rw [if_neg c, delete_commit1_PT,
      if_neg (by rw [← delete_commit1_SP p lm db]; exact c)]

/-- C10: the read paths are write-free: `get_from_cache` and
`SqlBackedCache.__contains__` execute only the point `SELECT` statement,
no statement they execute is a write, and executing them leaves every
row of the three tables unchanged. -/
theorem C10_reads_write_free (p : LmPrompt) (lm : LmPredictor) (db : CacheDb) :
    (∀ s ∈ get_from_cache_stmts p lm, isWriteStmt s = false) ∧
    execStmts (get_from_cache_stmts p lm) db = db ∧
    contains_stmts p lm = get_from_cache_stmts p lm ∧
    execStmts (contains_stmts p lm) db = db ∧
    SqlBackedCache.contains p lm db = (get_from_cache p lm db).isSome := by
  refine ⟨?_, rfl, rfl, rfl, rfl⟩
  intro s hs
  simp only [get_from_cache_stmts, List.mem_singleton] at hs
  subst hs
  rfl

/-- Witness for C10 at concrete inputs. -/
theorem C10_reads_write_free_witness :
    execStmts (get_from_cache_stmts samplePromptA sampleLm) sampleDbA = sampleDbA ∧
    isWriteStmt (SqlStmt.selectPredictionWhere
      (prompt_to_sample_hash_text samplePromptA (sampleLm.model_cache_key))) = false :=
  ⟨(C10_reads_write_free samplePromptA sampleLm sampleDbA).2.1,
    (C10_reads_write_free samplePromptA sampleLm sampleDbA).1 _ (List.Mem.head _)⟩

/-- C2 fails as stated: for `SqlBackedCache.delete` there is a durable
committed state (after the first `conn.commit()`, here on the database
holding one record) that is neither the initial nor the final state:
predictions and sample-parameter rows are already gone while the orphan
prompt-text row still awaits the second commit. -/
theorem C2_atomicity_counterexample :
    delete_commit1 samplePromptA sampleLm sampleDbA
        ∈ delete_commits samplePromptA sampleLm sampleDbA ∧
    ¬ delete_commit1 samplePromptA sampleLm sampleDbA = sampleDbA ∧
    ¬ delete_commit1 samplePromptA sampleLm sampleDbA
        = (SqlBackedCache.delete samplePromptA sampleLm sampleDbA).1 := by
  refine ⟨List.Mem.tail _ (List.Mem.head _), by decide, by decide⟩

/-- C2 amended: `add_prediction_to_cache` runs under a single commit, so
its durable states are only the initial and final ones; for
`SqlBackedCache.delete` every durable state is initial, final, or the
intermediate one, which already agrees with the final state on the
prediction and sample-parameter tables and with the initial state on
the prompt-text table. -/
theorem C2_commit_atomicity :
    (∀ (pred : LmPrediction) (mk now : List Nat) (db : CacheDb),
      ∀ s ∈ add_prediction_commits pred mk now db,
        s = db ∨ s = add_prediction_to_cache pred mk now db) ∧
    (∀ (p : LmPrompt) (lm : LmPredictor) (db : CacheDb),
      ∀ s ∈ delete_commits p lm db,
        s = db ∨ s = (SqlBackedCache.delete p lm db).1 ∨
          (s.predictions = (SqlBackedCache.delete p lm db).1.predictions ∧
           s.sampleParams = (SqlBackedCache.delete p lm db).1.sampleParams ∧
           s.promptText = db.promptText)) := by
  constructor
  · intro pred mk now db s hs
    simp only [add_prediction_commits, List.mem_cons, List.not_mem_nil, or_false] at hs
    exact hs
  · intro p lm db s hs
    simp only [delete_commits, List.mem_cons, List.not_mem_nil, or_false] at hs
    rcases hs with h | h | h
    · exact Or.inl h
    · subst h
      refine Or.inr (Or.inr ⟨?_, ?_, delete_commit1_PT p lm db⟩)
      · rw [delete_fst_structure]
        by_cases c : (delete_commit1 p lm db).sampleParams.countP
            (fun r => r.text_hash = prompt_to_text_hash p) = 0
        · rw [if_pos c, delPT_preds]
        · rw [if_neg c]
      · rw [delete_fst_structure]
        by_cases c : (delete_commit1 p lm db).sampleParams.countP
            (fun r => r.text_hash = prompt_to_text_hash p) = 0
        · rw [if_pos c, delPT_SP]
        · rw [if_neg c]
    · exact Or.inr (Or.inl h)

/-- Witness for C2 amended, at the intermediate durable state of a
concrete delete. -/
theorem C2_commit_atomicity_witness :
    delete_commit1 samplePromptA sampleLm sampleDbA = sampleDbA ∨
    delete_commit1 samplePromptA sampleLm sampleDbA
        = (SqlBackedCache.delete samplePromptA sampleLm sampleDbA).1 ∨
    ((delete_commit1 samplePromptA sampleLm sampleDbA).predictions
        = (SqlBackedCache.delete samplePromptA sampleLm sampleDbA).1.predictions ∧
     (delete_commit1 samplePromptA sampleLm sampleDbA).sampleParams
        = (SqlBackedCache.delete samplePromptA sampleLm sampleDbA).1.sampleParams ∧
     (delete_commit1 samplePromptA sampleLm sampleDbA).promptText
        = sampleDbA.promptText) :=
  C2_commit_atomicity.2 samplePromptA sampleLm sampleDbA
    (delete_commit1 samplePromptA sampleLm sampleDbA)
    (List.Mem.tail _ (List.Mem.head _))

/-- C3 fails as stated: on a database holding a sample-parameter row but
no prediction row for the request (reachable through the store's public
upsert), `SqlBackedCache.delete` returns `true` although no
`CacheLmPrediction` row was removed — the flag reads `cursor.rowcount`
of the sample-parameter delete, the last statement executed. -/
theorem C3_counterexample :
    (SqlBackedCache.delete samplePromptA sampleLm sampleDbSPOnly).2 = true ∧
    sampleDbSPOnly.predictions = [] ∧
    (SqlBackedCache.delete samplePromptA sampleLm sampleDbSPOnly).1.predictions = [] := by
  refine ⟨by decide, by decide, by decide⟩

/-- C3 amended: the flag returned by `SqlBackedCache.delete` is true iff
at least one `CacheLmPromptSampleParams` row was removed (not a
`CacheLmPrediction` row); deleting a request none of whose keys appear
in any table returns `false` and leaves the database unchanged. -/
theorem C3_delete_flag (p : LmPrompt) (lm : LmPredictor) (db : CacheDb) :
    ((SqlBackedCache.delete p lm db).2 = true ↔
      0 < db.sampleParams.countP
        (fun r => r.sample_hash = prompt_to_sample_hash_text p lm.model_cache_key)) ∧
    ((∀ r ∈ db.predictions,
        r.sample_params ≠ prompt_to_sample_hash_text p lm.model_cache_key) →
     (∀ r ∈ db.sampleParams,
        r.sample_hash ≠ prompt_to_sample_hash_text p lm.model_cache_key) →
     (∀ r ∈ db.promptText, r.text_hash ≠ prompt_to_text_hash p) →
      (SqlBackedCache.delete p lm db).2 = false ∧
      (SqlBackedCache.delete p lm db).1 = db) := by
  have hflag : (SqlBackedCache.delete p lm db).2
      = decide (0 < db.sampleParams.countP
          (fun r => r.sample_hash = prompt_to_sample_hash_text p lm.model_cache_key)) := by
    simp only [SqlBackedCache.delete, delPred_SP]
  constructor
  · rw [hflag]
    exact decide_eq_true_iff
  · intro hpred hsp hpt
    have h0 : db.sampleParams.countP
        (fun r => r.sample_hash = prompt_to_sample_hash_text p lm.model_cache_key) = 0 := by
      rw [List.countP_eq_zero]
      intro a ha
      simpa using hsp a ha
    constructor
    · rw [hflag, h0]
      decide
    · rw [delete_fst_structure]
      have hmid : delete_commit1 p lm db = db := by
        have hA : execStmt (SqlStmt.deletePredictionsWhere
            (prompt_to_sample_hash_text p lm.model_cache_key)) db = db := by
          simp only [execStmt]
          rw [List.filter_eq_self.mpr (fun a ha => by simpa using hpred a ha)]
        have hB : execStmt (SqlStmt.deleteSampleParamsWhere
            (prompt_to_sample_hash_text p lm.model_cache_key)) db = db := by
          simp only [execStmt]
          rw [List.filter_eq_self.mpr (fun a ha => by simpa using hsp a ha)]
        simp only [delete_commit1, execStmts, List.foldl_cons, List.foldl_nil, hA, hB]
      rw [hmid]
      by_cases c : db.sampleParams.countP
          (fun r => r.text_hash = prompt_to_text_hash p) = 0
      · rw [if_pos c]
        simp only [execStmt]
        rw [List.filter_eq_self.mpr (fun a ha => by simpa using hpt a ha)]
      · rw [if_neg c]

/-- Witness for C3 amended at concrete inputs: deleting from the empty
database returns `false` and changes nothing. -/
theorem C3_delete_flag_witness :
    (SqlBackedCache.delete samplePromptA sampleLm emptyDb).2 = false ∧
    (SqlBackedCache.delete samplePromptA sampleLm emptyDb).1 = emptyDb :=
  (C3_delete_flag samplePromptA sampleLm emptyDb).2
    (by simp [emptyDb]) (by simp [emptyDb]) (by simp [emptyDb])

/-- C5: two requests sharing prompt text but with distinct sample keys
(the spec's invariant for requests differing in sampling parameters):
after both are recorded from an empty cache, deleting one leaves the
shared prompt-text row present, and deleting both removes it. -/
theorem C5_orphan_cleanup (p1 p2 : LmPrompt) (lm : LmPredictor)
    (pred1 pred2 : LmPrediction) (now1 now2 : List Nat)
    (hp1 : pred1.prompt = p1) (hp2 : pred2.prompt = p2)
    (htext : p1.text = p2.text)
    (hsh : prompt_to_sample_hash_text p1 lm.model_cache_key
         ≠ prompt_to_sample_hash_text p2 lm.model_cache_key) :
    ((SqlBackedCache.delete p1 lm
        (add_prediction_to_cache pred2 lm.model_cache_key now2
          (add_prediction_to_cache pred1 lm.model_cache_key now1 emptyDb))).1.promptText.any
      (fun r => r.text_hash = prompt_to_text_hash p1)) = true ∧
    (SqlBackedCache.delete p2 lm
        (SqlBackedCache.delete p1 lm
          (add_prediction_to_cache pred2 lm.model_cache_key now2
            (add_prediction_to_cache pred1 lm.model_cache_key now1 emptyDb))).1).1.promptText
      = [] := by
  have hth1 : prompt_to_text_hash pred1.prompt = prompt_to_text_hash p1 := by rw [hp1]
  have hth2 : prompt_to_text_hash pred2.prompt = prompt_to_text_hash p1 := by
    rw [hp2]
    exact textHash_congr p2 p1 htext.symm
  have hthp : prompt_to_text_hash p2 = prompt_to_text_hash p1 :=
    textHash_congr p2 p1 htext.symm
  have hsh1 : prompt_to_sample_hash_text pred1.prompt lm.model_cache_key
      = prompt_to_sample_hash_text p1 lm.model_cache_key := by rw [hp1]
  have hsh2 : prompt_to_sample_hash_text pred2.prompt lm.model_cache_key
      = prompt_to_sample_hash_text p2 lm.model_cache_key := by rw [hp2]
  have e1P : (add_prediction_to_cache pred1 lm.model_cache_key now1 emptyDb).promptText
      = [{ text_hash := prompt_to_text_hash pred1.prompt, text := pred1.prompt.text }] := by
    rw [add_PT_eq]
    simp [emptyDb]
  have e1S : (add_prediction_to_cache pred1 lm.model_cache_key now1 emptyDb).sampleParams
      = [mkSampleParamsRow pred1.prompt lm.model_cache_key
          (prompt_to_text_hash pred1.prompt)
          (prompt_to_sample_hash_text pred1.prompt lm.model_cache_key)] := by
    rw [add_SP_eq]
    simp [emptyDb]
  have e2P : (add_prediction_to_cache pred2 lm.model_cache_key now2
        (add_prediction_to_cache pred1 lm.model_cache_key now1 emptyDb)).promptText
      = [{ text_hash := prompt_to_text_hash pred1.prompt, text := pred1.prompt.text }] := by
    rw [add_PT_eq, e1P]
    rw [if_pos (by simp [hth1, hth2])]
  have e2S : (add_prediction_to_cache pred2 lm.model_cache_key now2
        (add_prediction_to_cache pred1 lm.model_cache_key now1 emptyDb)).sampleParams
      = [mkSampleParamsRow pred1.prompt lm.model_cache_key
          (prompt_to_text_hash pred1.prompt)
          (prompt_to_sample_hash_text pred1.prompt lm.model_cache_key),
         mkSampleParamsRow pred2.prompt lm.model_cache_key
          (prompt_to_text_hash pred2.prompt)
          (prompt_to_sample_hash_text pred2.prompt lm.model_cache_key)] := by
    rw [add_SP_eq, e1S]
    rw [if_neg (by simp [mkSampleParamsRow, hsh1, hsh2]; exact hsh)]
    simp
  have a1S : (SqlBackedCache.delete p1 lm
        (add_prediction_to_cache pred2 lm.model_cache_key now2
          (add_prediction_to_cache pred1 lm.model_cache_key now1 emptyDb))).1.sampleParams
      = [mkSampleParamsRow pred2.prompt lm.model_cache_key
          (prompt_to_text_hash pred2.prompt)
          (prompt_to_sample_hash_text pred2.prompt lm.model_cache_key)] := by
    rw [delete_fst_sampleParams, e2S]
    simp [mkSampleParamsRow, hsh1, hsh2, Ne.symm hsh]
  have a1P : (SqlBackedCache.delete p1 lm
        (add_prediction_to_cache pred2 lm.model_cache_key now2
          (add_prediction_to_cache pred1 lm.model_cache_key now1 emptyDb))).1.promptText
      = [{ text_hash := prompt_to_text_hash pred1.prompt, text := pred1.prompt.text }] := by
    rw [delete_fst_PT, e2S, e2P]
    rw [if_neg (by simp [mkSampleParamsRow, hsh1, hsh2, Ne.symm hsh, hth2])]
  constructor
  · rw [a1P]
    simp [hth1]
  · rw [delete_fst_PT, a1S, a1P]
    rw [if_pos (by simp [mkSampleParamsRow, hsh2])]
    simp [hth1, hth2, hthp]

/-- Witness for C5 at concrete inputs: two recorded predictions sharing
the text of `samplePromptA` but with different temperatures. -/
theorem C5_orphan_cleanup_witness :
    samplePredA.prompt = samplePromptA ∧ samplePredB.prompt = samplePromptB ∧
    samplePromptA.text = samplePromptB.text ∧
    prompt_to_sample_hash_text samplePromptA (sampleLm.model_cache_key)
      ≠ prompt_to_sample_hash_text samplePromptB (sampleLm.model_cache_key) ∧
    (((SqlBackedCache.delete samplePromptA sampleLm
        (add_prediction_to_cache samplePredB (sampleLm.model_cache_key) sampleNow
          (add_prediction_to_cache samplePredA (sampleLm.model_cache_key) sampleNow
            emptyDb))).1.promptText.any
      (fun r => r.text_hash = prompt_to_text_hash samplePromptA)) = true ∧
    (SqlBackedCache.delete samplePromptB sampleLm
        (SqlBackedCache.delete samplePromptA sampleLm
          (add_prediction_to_cache samplePredB (sampleLm.model_cache_key) sampleNow
            (add_prediction_to_cache samplePredA (sampleLm.model_cache_key) sampleNow
              emptyDb))).1).1.promptText = []) :=
  ⟨rfl, rfl, rfl, by decide,
    C5_orphan_cleanup samplePromptA samplePromptB sampleLm samplePredA samplePredB
      sampleNow sampleNow rfl rfl rfl (by decide)⟩
